import Mathlib

/-!
# whoami-go: the HTTP surface of `src/main.go`

A shallow embedding of the Fiber application built in `main`: the CORS
middleware registered with `app.Use`, the four routes registered with
`app.Get` / `app.Post`, and the `User` record.

The two collaborators the handlers call into are taken as parameters
(`Env`): the body parser of the web framework and the `QueryRow(...).Scan`
round trip of the database pool.  The framework calls the handlers make on
the request context (`Set`, `Status`, `SendStatus`, `SendString`, `JSON`,
`Params`, `Next`) are state transformers on `Ctx`.  Every statement sent to
the database and every line written to the process log is recorded in the
context, so that the effect of a request can be stated.

A JSON body is kept as the document it encodes (`Json`), its members in the
order of the `fiber.Map` literal of the source; the bytes the encoder writes are
not modelled.
-/

set_option autoImplicit false

namespace WhoAmI

/-! ## Data model -/

/-- The `User` struct (`main.go`, lines 12-16); Go `int` is modelled by `Int`,
no arithmetic is performed on it. -/
structure User where
  ID : Int
  Name : String
  Email : String
  deriving DecidableEq

/-- The request methods the framework routes (`fiber.DefaultMethods`); a request
with any other method is turned away before the handler stack runs. -/
def requestMethods : List String :=
  ["GET", "HEAD", "POST", "PUT", "DELETE", "CONNECT", "OPTIONS", "TRACE", "PATCH"]

/-- An incoming HTTP request: method (the text `c.Method()` returns, any string
the client sends), path (without the query string), query parameters, headers
and body. -/
structure Request where
  method : String
  path : String
  query : List (String × String)
  headers : List (String × String)
  body : String
  deriving DecidableEq

/-- The values the handlers store in a `fiber.Map`: a string or a `User`. -/
inductive Value where
  | str (s : String)
  | user (u : User)
  deriving DecidableEq

/-- A `fiber.Map` literal, its entries in the order the source writes them. -/
abbrev Map := List (String × Value)

/-- A response body: nothing written, a text (`SendString`), or a map handed
to the JSON encoder (`JSON`). -/
inductive Body where
  | empty
  | text (s : String)
  | json (m : Map)
  deriving DecidableEq

/-- A statement sent to the database: its text and its positional arguments. -/
structure Stmt where
  text : String
  args : List String
  deriving DecidableEq

/-- The request context a handler works on, together with the effects the
request has had so far: the response being built (status, headers, body),
the statements sent to the database and the lines written to the log. -/
structure Ctx where
  req : Request
  params : List (String × String)
  status : Nat
  headers : List (String × String)
  body : Body
  stmts : List Stmt
  logs : List String
  deriving DecidableEq

/-- The collaborators of the handlers.  `BodyParser` is `c.BodyParser(&user)`:
it decodes the request into a `User` or fails.  `QueryRow` is
`db.QueryRow(ctx, query, args...).Scan(&newUserID)`: it returns the scanned
id or the error of the round trip. -/
structure Env where
  BodyParser : Request → Except String User
  QueryRow : String → List String → Except String Int

/-- A JSON document, as far as the responses of this service need it. -/
inductive Json where
  | str (s : String)
  | num (n : Int)
  | obj (fields : List (String × Json))

/-- The encoding of a `User`, by the struct tags `json:"id"`, `json:"name"`,
`json:"email"` in declaration order. -/
def User.toJson (u : User) : Json :=
  .obj [("id", .num u.ID), ("name", .str u.Name), ("email", .str u.Email)]

/-- The encoding of a map value. -/
def Value.toJson : Value → Json
  | .str s => .str s
  | .user u => u.toJson

/-- The encoding of a `fiber.Map`: one JSON object, one member per entry. -/
def Map.toJson (m : Map) : Json :=
  .obj (m.map fun kv => (kv.1, kv.2.toJson))

/-- A JSON value that is not an object. -/
def Json.isScalar : Json → Bool
  | .obj _ => false
  | _ => true

/-- A flat JSON object: an object all of whose member values are scalars. -/
def Json.isFlatObject : Json → Bool
  | .obj fields => fields.all fun kv => kv.2.isScalar
  | _ => false

/-- The member names of a JSON object (none for a scalar). -/
def Json.keys : Json → List String
  | .obj fields => fields.map Prod.fst
  | _ => []

/-- The member of a JSON object under a name. -/
def Json.member (k : String) : Json → Option Json
  | .obj fields => fields.lookup k
  | _ => none

/-! ## The framework calls used by the handlers -/

/-- The context a request starts with: status 200, no header, no body. -/
def Ctx.new (req : Request) : Ctx :=
  { req := req, params := [], status := 200, headers := [], body := .empty,
    stmts := [], logs := [] }

/-- The reason phrases of the status codes this service uses
(`utils.StatusMessage`). -/
def statusMessage : Nat → String
  | 200 => "OK"
  | 201 => "Created"
  | 400 => "Bad Request"
  | 404 => "Not Found"
  | 405 => "Method Not Allowed"
  | 500 => "Internal Server Error"
  | _ => ""

namespace Ctx

/-- The call `c.Set(key, val)`: sets the response header, replacing a value set
before. -/
def Set (c : Ctx) (key val : String) : Ctx :=
  { c with headers := c.headers.filter (fun kv => kv.1 ≠ key) ++ [(key, val)] }

/-- The call `c.Status(code)`. -/
def Status (c : Ctx) (code : Nat) : Ctx :=
  { c with status := code }

/-- The call `c.SendString(s)`: the body becomes the text `s`. -/
def SendString (c : Ctx) (s : String) : Ctx :=
  { c with body := .text s }

/-- The call `c.SendStatus(code)`: "sets the status code and the correct status
message in the body, if the response body is empty" (Fiber's documentation of
`SendStatus`). -/
def SendStatus (c : Ctx) (code : Nat) : Ctx :=
  let c := c.Status code
  if c.body = .empty then c.SendString (statusMessage code) else c

/-- The call `c.JSON(m)`: the body becomes the encoding of `m` and the content
type is set to `application/json`. -/
def JSON (c : Ctx) (m : Map) : Ctx :=
  { c with body := .json m }.Set "Content-Type" "application/json"

/-- The call `c.Params(key)`: the value of a route parameter, `""` when there is
none. -/
def Params (c : Ctx) (key : String) : String :=
  (c.params.lookup key).getD ""

/-- The call `db.QueryRow(ctx, query, args...)`, seen from the database: one
statement is sent. -/
def exec (c : Ctx) (query : String) (args : List String) : Ctx :=
  { c with stmts := c.stmts ++ [⟨query, args⟩] }

/-- The call `log.Printf`, its line already formatted. -/
def log (c : Ctx) (line : String) : Ctx :=
  { c with logs := c.logs ++ [line] }

/-- The value of a response header. -/
def header (c : Ctx) (key : String) : Option String :=
  c.headers.lookup key

end Ctx

/-! ## The handlers of `main` -/

/-- The origin the CORS middleware allows (`main.go`, line 68). -/
def allowedOrigin : String := "http://localhost:5173"

/-- The middleware registered with `app.Use` (`main.go`, lines 66-76); `next` is
`c.Next()`, the rest of the handler stack. -/
def corsMiddleware (next : Ctx → Ctx) (c : Ctx) : Ctx :=
  let c := c.Set "Access-Control-Allow-Origin" allowedOrigin
  let c := c.Set "Access-Control-Allow-Methods" "GET,POST,OPTIONS"
  let c := c.Set "Access-Control-Allow-Headers" "Content-Type"
  if c.req.method = "OPTIONS" then
    c.SendStatus 200
  else
    next c

/-- The handler of `GET /` (`main.go`, lines 84-86). -/
def helloHandler (c : Ctx) : Ctx :=
  c.SendString "Hello, World!"

/-- The handler of `GET /api` (`main.go`, lines 94-99). -/
def apiHandler (c : Ctx) : Ctx :=
  c.JSON [("status", .str "success"), ("message", .str "Welcome to the API")]

/-- The handler of `GET /api/user/:id` (`main.go`, lines 108-113). -/
def getUserHandler (c : Ctx) : Ctx :=
  let id := c.Params "id"
  c.JSON [("user_id", .str id)]

/-- The text of the insert (`main.go`, line 134). -/
def insertQuery : String :=
  "INSERT INTO users (name, email) VALUES ($1, $2) RETURNING id"

/-- The rendering of a `User` by the verb `%+v`. -/
def User.format (u : User) : String :=
  "\x7bID:" ++ toString u.ID ++ " Name:" ++ u.Name ++ " Email:" ++ u.Email ++ "\x7d"

/-- The handler of `POST /api/user` (`main.go`, lines 123-153). -/
def createUserHandler (env : Env) (c : Ctx) : Ctx :=
  match env.BodyParser c.req with
  | .error _ =>
    (c.Status 400).JSON [("status", .str "error"), ("message", .str "Invalid JSON data")]
  | .ok user =>
    let query := insertQuery
    let c := c.exec query [user.Name, user.Email]
    match env.QueryRow query [user.Name, user.Email] with
    | .error err =>
      let c := c.log ("Failed to insert user: " ++ err)
      (c.Status 500).JSON [("status", .str "error"), ("message", .str "Failed to create user")]
    | .ok newUserID =>
      let user := { user with ID := newUserID }
      let c := c.log ("User created: " ++ user.format)
      (c.Status 201).JSON
        [("status", .str "success"), ("message", .str "User created successfully"),
         ("user", .user user)]

/-! ## Routing -/

/-- The pieces of a path between its slashes: `/api/user` gives `""`, `api`,
`user`. -/
def splitSlash : List Char → List (List Char)
  | [] => [[]]
  | c :: cs =>
    if c = '/' then [] :: splitSlash cs
    else
      match splitSlash cs with
      | [] => [[c]]
      | s :: ss => (c :: s) :: ss

/-- Removes the slashes a character list ends with. -/
def trimRightSlash (cs : List Char) : List Char :=
  (cs.reverse.dropWhile (fun c => c = '/')).reverse

/-- The path the router matches on: without strict routing (the default of
`fiber.New()`), the trailing slashes of a path longer than one character are
dropped. -/
def detectionPath (cs : List Char) : List Char :=
  if 1 < cs.length then trimRightSlash cs else cs

/-- Matches the segments of a route pattern against the segments of a path.  A
pattern segment `:name` takes any segment that is not empty and binds it under
`name`; any other pattern segment takes the same segment, letter case aside
(routing is not case sensitive by default). -/
def matchSegs : List (List Char) → List (List Char) → Option (List (String × String))
  | [], [] => some []
  | p :: ps, s :: ss =>
    match p with
    | ':' :: name =>
      if s = [] then none
      else (matchSegs ps ss).map fun r => (String.mk name, String.mk s) :: r
    | _ =>
      if p.map Char.toLower = s.map Char.toLower then matchSegs ps ss else none
  | _, _ => none

/-- Matches a path against a route pattern; on success, the route parameters. -/
def matchRoute (pattern path : String) : Option (List (String × String)) :=
  matchSegs (splitSlash pattern.data) (splitSlash (detectionPath path.data))

/-- A registered route: method, pattern and handler. -/
structure Route where
  method : String
  pattern : String
  handler : Env → Ctx → Ctx

/-- The call `app.Get(path, handler)`: the handler is registered under HEAD and
under GET. -/
def Get (path : String) (handler : Env → Ctx → Ctx) : List Route :=
  [⟨"HEAD", path, handler⟩, ⟨"GET", path, handler⟩]

/-- The call `app.Post(path, handler)`. -/
def Post (path : String) (handler : Env → Ctx → Ctx) : List Route :=
  [⟨"POST", path, handler⟩]

/-- The routes of `main`, in the order they are registered. -/
def routes : List Route :=
  Get "/" (fun _ => helloHandler) ++
  Get "/api" (fun _ => apiHandler) ++
  Get "/api/user/:id" (fun _ => getUserHandler) ++
  Post "/api/user" createUserHandler

/-- The framework's default error handler: a text response carrying the status
code and message of the error. -/
def errorHandler (code : Nat) (msg : String) (c : Ctx) : Ctx :=
  ((c.Set "Content-Type" "text/plain; charset=utf-8").Status code).SendString msg

/-- Whether the path matches a route registered under another method. -/
def methodExist (rs : List Route) (c : Ctx) : Bool :=
  rs.any fun r => decide (r.method ≠ c.req.method) && (matchRoute r.pattern c.req.path).isSome

/-- The answer of the router when no route takes the request: 405 when the path
is routed under another method, 404 otherwise. -/
def noRoute (rs : List Route) (c : Ctx) : Ctx :=
  if methodExist rs c then errorHandler 405 "Method Not Allowed" c
  else errorHandler 404 ("Cannot " ++ c.req.method ++ " " ++ c.req.path) c

/-- The router: the first route, in registration order, whose method and pattern
match the request runs its handler with the route parameters bound. -/
def dispatch (env : Env) (all : List Route) : List Route → Ctx → Ctx
  | [], c => noRoute all c
  | r :: rs, c =>
    if r.method = c.req.method then
      match matchRoute r.pattern c.req.path with
      | some ps => r.handler env { c with params := ps }
      | none => dispatch env all rs c
    else dispatch env all rs c

/-- The handler stack of a request: the CORS middleware, then the router. -/
def stack (env : Env) (rs : List Route) (req : Request) : Ctx :=
  corsMiddleware (dispatch env rs rs) (Ctx.new req)

/-- An application with the CORS middleware in front of a route table, as the
framework runs it.  A request whose method is not one of `requestMethods` is
answered 400 at once, before the middleware; the response to a HEAD request is
sent without the body the handlers wrote. -/
def serve (env : Env) (rs : List Route) (req : Request) : Ctx :=
  if req.method ∈ requestMethods then
    let c := stack env rs req
    if req.method = "HEAD" then { c with body := .empty } else c
  else
    ((Ctx.new req).Status 400).SendString "Invalid http method"

/-- The application `main` builds and listens with. -/
def app (env : Env) (req : Request) : Ctx :=
  serve env routes req

/-- The JSON document of a response body, when it is one. -/
def Body.toJson? : Body → Option Json
  | .json m => some m.toJson
  | _ => none

/-! ## Properties of response documents -/

/-- The response envelope: a JSON object with the member `status` holding
"success" or "error", the member `message`, and no member besides these two,
`user` and `user_id`. -/
def Json.isEnvelope (j : Json) : Bool :=
  (match j.member "status" with
    | some (.str s) => decide (s = "success" ∨ s = "error")
    | _ => false) &&
  (j.member "message").isSome &&
  j.keys.all fun k => decide (k ∈ ["status", "message", "user", "user_id"])

/-! ## Sample collaborators -/

/-- A JSON body for `POST /api/user`: the object with `id` 7, `name` "Ann" and
`email` "ann@example.org". -/
def annBody : String :=
  "\x7b\"id\":7,\"name\":\"Ann\",\"email\":\"ann@example.org\"\x7d"

/-- The headers of a request with a JSON body. -/
def jsonHeaders : List (String × String) :=
  [("Content-Type", "application/json")]

/-- A body parser and a database that work: the body `annBody` parses into the
user it spells, who carries the id 7, any other body does not parse; the insert
returns the id 42. -/
def sampleEnv : Env where
  BodyParser := fun req =>
    if req.body = annBody then .ok ⟨7, "Ann", "ann@example.org"⟩
    else .error "unexpected end of JSON input"
  QueryRow := fun query _ =>
    if query = insertQuery then .ok 42 else .error "syntax error"

/-- The same parser with a database that cannot be reached. -/
def downEnv : Env where
  BodyParser := sampleEnv.BodyParser
  QueryRow := fun _ _ => .error "connection refused"

/-- The same parser with a database that rejects the row. -/
def rejectEnv : Env where
  BodyParser := sampleEnv.BodyParser
  QueryRow := fun _ _ => .error "violates check constraint"

/-! ## Helper lemmas -/

theorem header_Set (c : Ctx) (k v k2 : String) :
    (c.Set k v).header k2 = if k2 = k then some v else c.header k2 := by
  unfold Ctx.header Ctx.Set
  simp only
  induction c.headers with
  | nil =>
    by_cases h : k2 = k
    · simp [h, List.lookup]
    · have : (k2 == k) = false := by simpa using h
      simp [h, List.lookup, this]
  | cons kv rest ih =>
    obtain ⟨a, b⟩ := kv
    by_cases hak : a = k
    · subst hak
      by_cases h : k2 = a
      · simpa [h, List.filter] using ih
      · have h2 : (k2 == a) = false := by simpa using h
        simp [List.filter] at ih ⊢
        simp [h, List.lookup, h2] at ih ⊢
        exact ih
    · by_cases h : k2 = k
      · subst h
        have h2 : (k2 == a) = false := by simpa using (Ne.symm hak)
        simp [List.filter, hak, List.lookup, h2] at ih ⊢
        exact ih
      · simp [List.filter, hak, List.lookup, h] at ih ⊢
        cases hka : (k2 == a) <;> simp [ih]

theorem dispatch_routes_post (env : Env) (c : Ctx) (h : c.req.method = "POST") :
    dispatch env routes routes c =
      match matchRoute "/api/user" c.req.path with
      | some ps => createUserHandler env { c with params := ps }
      | none => noRoute routes c := by
  simp [routes, Get, Post, dispatch, h]

theorem stack_not_options (env : Env) (rs : List Route) (req : Request)
    (h : req.method ≠ "OPTIONS") :
    stack env rs req =
      dispatch env rs rs
        ((((Ctx.new req).Set "Access-Control-Allow-Origin" allowedOrigin).Set
          "Access-Control-Allow-Methods" "GET,POST,OPTIONS").Set
          "Access-Control-Allow-Headers" "Content-Type") := by
  simp [stack, corsMiddleware, Ctx.Set, Ctx.new, h]

theorem stack_options (env : Env) (rs : List Route) (req : Request)
    (h : req.method = "OPTIONS") :
    stack env rs req =
      ((((Ctx.new req).Set "Access-Control-Allow-Origin" allowedOrigin).Set
        "Access-Control-Allow-Methods" "GET,POST,OPTIONS").Set
        "Access-Control-Allow-Headers" "Content-Type").SendStatus 200 := by
  simp [stack, corsMiddleware, Ctx.Set, Ctx.new, h]

theorem serve_eq_stack (env : Env) (rs : List Route) (req : Request)
    (hk : req.method ∈ requestMethods) (hh : req.method ≠ "HEAD") :
    serve env rs req = stack env rs req := by
  simp only [serve, if_pos hk, if_neg hh]

theorem serve_head (env : Env) (rs : List Route) (req : Request)
    (hh : req.method = "HEAD") :
    serve env rs req = { stack env rs req with body := .empty } := by
  have hk : req.method ∈ requestMethods := by rw [hh]; decide
  simp only [serve, if_pos hk, if_pos hh]

theorem serve_unknown (env : Env) (rs : List Route) (req : Request)
    (hk : req.method ∉ requestMethods) :
    serve env rs req = ((Ctx.new req).Status 400).SendString "Invalid http method" := by
  simp only [serve, if_neg hk]

theorem splitSlash_of_no_slash (d : List Char) (h : '/' ∉ d) : splitSlash d = [d] := by
  induction d with
  | nil => rfl
  | cons c cs ih =>
    have hc : c ≠ '/' := fun e => h (by simp [e])
    have hcs : '/' ∉ cs := fun e => h (by simp [e])
    simp [splitSlash, hc, ih hcs]

theorem trimRightSlash_append (l d : List Char) (hne : d ≠ []) (h : '/' ∉ d) :
    trimRightSlash (l ++ d) = l ++ d := by
  unfold trimRightSlash
  rcases List.eq_nil_or_concat d with hd | ⟨xs, x, hd⟩
  · exact absurd hd hne
  · subst hd
    have hx : x ≠ '/' := fun e => h (by simp [e])
    simp [List.dropWhile, hx]

theorem matchRoute_user_id (id : String) (hne : id ≠ "") (h : '/' ∉ id.data) :
    matchRoute "/api/user/:id" ("/api/user/" ++ id) = some [("id", id)] ∧
    matchRoute "/" ("/api/user/" ++ id) = none ∧
    matchRoute "/api" ("/api/user/" ++ id) = none := by
  have hd : id.data ≠ [] := by
    intro e
    apply hne
    cases id
    simp_all
  have hdata : ("/api/user/" ++ id).data = "/api/user/".data ++ id.data := by
    simp [String.data_append]
  have hlen : 1 < ("/api/user/".data ++ id.data).length := by
    simp [List.length_append]
  have hsplit : splitSlash ("/api/user/".data ++ id.data)
      = [[], "api".data, "user".data, id.data] := by
    have : "/api/user/".data = ['/', 'a', 'p', 'i', '/', 'u', 's', 'e', 'r', '/'] := by decide
    rw [this]
    simp [splitSlash, splitSlash_of_no_slash _ h]
  have hp1 : splitSlash "/api/user/:id".data = [[], "api".data, "user".data, ":id".data] := by
    decide
  have hp2 : splitSlash "/".data = [[], []] := by decide
  have hp3 : splitSlash "/api".data = [[], "api".data] := by decide
  unfold matchRoute
  rw [hdata, detectionPath, if_pos hlen, trimRightSlash_append _ _ hd h, hsplit, hp1, hp2, hp3]
  refine ⟨?_, ?_, ?_⟩
  · have h3 : ":id".data = ':' :: "id".data := by decide
    rw [h3]
    simp [matchSegs, hd]
  · simp [matchSegs]
  · simp [matchSegs]

theorem dispatch_cases (env : Env) (all rs : List Route) (c : Ctx) :
    dispatch env all rs c = noRoute all c ∨
    ∃ r ∈ rs, ∃ ps, r.method = c.req.method ∧ matchRoute r.pattern c.req.path = some ps ∧
      dispatch env all rs c = r.handler env { c with params := ps } := by
  induction rs with
  | nil => exact Or.inl rfl
  | cons r rs ih =>
    by_cases hm : r.method = c.req.method
    · cases hp : matchRoute r.pattern c.req.path with
      | none =>
        have : dispatch env all (r :: rs) c = dispatch env all rs c := by
          simp [dispatch, hm, hp]
        rw [this]
        rcases ih with h | ⟨r2, hr2, ps, h1, h2, h3⟩
        · exact Or.inl h
        · exact Or.inr ⟨r2, List.mem_cons_of_mem _ hr2, ps, h1, h2, h3⟩
      | some ps =>
        refine Or.inr ⟨r, List.mem_cons_self _ _, ps, hm, hp, ?_⟩
        simp [dispatch, hm, hp]
    · have : dispatch env all (r :: rs) c = dispatch env all rs c := by
        simp [dispatch, hm]
      rw [this]
      rcases ih with h | ⟨r2, hr2, ps, h1, h2, h3⟩
      · exact Or.inl h
      · exact Or.inr ⟨r2, List.mem_cons_of_mem _ hr2, ps, h1, h2, h3⟩

theorem route_cases (r : Route) (hr : r ∈ routes) :
    ((r.method = "HEAD" ∨ r.method = "GET") ∧ r.pattern = "/" ∧
      r.handler = fun _ => helloHandler) ∨
    ((r.method = "HEAD" ∨ r.method = "GET") ∧ r.pattern = "/api" ∧
      r.handler = fun _ => apiHandler) ∨
    ((r.method = "HEAD" ∨ r.method = "GET") ∧ r.pattern = "/api/user/:id" ∧
      r.handler = fun _ => getUserHandler) ∨
    (r.method = "POST" ∧ r.pattern = "/api/user" ∧ r.handler = createUserHandler) := by
  simp only [routes, Get, Post, List.cons_append, List.nil_append, List.mem_cons,
    List.mem_singleton, List.not_mem_nil, or_false] at hr
  rcases hr with rfl | rfl | rfl | rfl | rfl | rfl | rfl <;> simp

theorem header_JSON (c : Ctx) (m : Map) (k : String) (hk : k ≠ "Content-Type") :
    (c.JSON m).header k = c.header k := by
  unfold Ctx.JSON
  rw [header_Set, if_neg hk]
  rfl

theorem header_noRoute (rs : List Route) (c : Ctx) (k : String) (hk : k ≠ "Content-Type") :
    (noRoute rs c).header k = c.header k := by
  unfold noRoute errorHandler
  split
  · show (c.Set "Content-Type" "text/plain; charset=utf-8").header k = _
    rw [header_Set, if_neg hk]
  · show (c.Set "Content-Type" "text/plain; charset=utf-8").header k = _
    rw [header_Set, if_neg hk]

theorem createUserHandler_cases (env : Env) (c : Ctx) :
    (∃ err, env.BodyParser c.req = .error err ∧
      createUserHandler env c =
        (c.Status 400).JSON [("status", .str "error"), ("message", .str "Invalid JSON data")]) ∨
    (∃ u err, env.BodyParser c.req = .ok u ∧
      env.QueryRow insertQuery [u.Name, u.Email] = .error err ∧
      createUserHandler env c =
        ((((c.exec insertQuery [u.Name, u.Email]).log ("Failed to insert user: " ++ err)).Status
          500).JSON [("status", .str "error"), ("message", .str "Failed to create user")])) ∨
    (∃ u k, env.BodyParser c.req = .ok u ∧
      env.QueryRow insertQuery [u.Name, u.Email] = .ok k ∧
      createUserHandler env c =
        ((((c.exec insertQuery [u.Name, u.Email]).log
          ("User created: " ++ User.format ⟨k, u.Name, u.Email⟩)).Status 201).JSON
          [("status", .str "success"), ("message", .str "User created successfully"),
           ("user", .user ⟨k, u.Name, u.Email⟩)])) := by
  cases hb : env.BodyParser c.req with
  | error err =>
    refine Or.inl ⟨err, rfl, ?_⟩
    simp only [createUserHandler, hb]
  | ok u =>
    cases hq : env.QueryRow insertQuery [u.Name, u.Email] with
    | error err =>
      refine Or.inr (Or.inl ⟨u, err, rfl, hq, ?_⟩)
      simp only [createUserHandler, hb, hq]
    | ok k =>
      refine Or.inr (Or.inr ⟨u, k, rfl, hq, ?_⟩)
      simp only [createUserHandler, hb, hq]

theorem header_createUserHandler (env : Env) (c : Ctx) (k : String)
    (hk : k ≠ "Content-Type") : (createUserHandler env c).header k = c.header k := by
  rcases createUserHandler_cases env c with ⟨_, -, h⟩ | ⟨_, _, -, -, h⟩ | ⟨_, _, -, -, h⟩ <;>
    rw [h, header_JSON _ _ _ hk] <;> rfl

theorem header_dispatch (env : Env) (c : Ctx) (k : String) (hk : k ≠ "Content-Type") :
    (dispatch env routes routes c).header k = c.header k := by
  rcases dispatch_cases env routes routes c with h | ⟨r, hr, ps, -, -, h⟩
  · rw [h, header_noRoute _ _ _ hk]
  · rw [h]
    rcases route_cases r hr with ⟨-, -, e⟩ | ⟨-, -, e⟩ | ⟨-, -, e⟩ | ⟨-, -, e⟩
    · rw [e]; rfl
    · rw [e]; exact header_JSON _ _ _ hk
    · rw [e]; exact header_JSON _ _ _ hk
    · rw [e]; exact header_createUserHandler _ _ _ hk

theorem cors_headers_set (c : Ctx) :
    let c3 := ((c.Set "Access-Control-Allow-Origin" allowedOrigin).Set
      "Access-Control-Allow-Methods" "GET,POST,OPTIONS").Set
      "Access-Control-Allow-Headers" "Content-Type"
    c3.header "Access-Control-Allow-Origin" = some allowedOrigin ∧
    c3.header "Access-Control-Allow-Methods" = some "GET,POST,OPTIONS" ∧
    c3.header "Access-Control-Allow-Headers" = some "Content-Type" := by
  simp only [header_Set]
  refine ⟨?_, ?_, ?_⟩ <;> simp

theorem header_stack (env : Env) (req : Request) :
    (stack env routes req).header "Access-Control-Allow-Origin" = some allowedOrigin ∧
    (stack env routes req).header "Access-Control-Allow-Methods" = some "GET,POST,OPTIONS" ∧
    (stack env routes req).header "Access-Control-Allow-Headers" = some "Content-Type" := by
  have h3 := cors_headers_set (Ctx.new req)
  by_cases hm : req.method = "OPTIONS"
  · rw [stack_options env routes req hm]
    exact h3
  · rw [stack_not_options env routes req hm]
    rw [header_dispatch _ _ _ (by decide), header_dispatch _ _ _ (by decide),
      header_dispatch _ _ _ (by decide)]
    exact h3

theorem stmts_JSON (c : Ctx) (m : Map) : (c.JSON m).stmts = c.stmts := rfl

theorem stmts_noRoute (rs : List Route) (c : Ctx) : (noRoute rs c).stmts = c.stmts := by
  unfold noRoute
  split <;> rfl

theorem stmts_createUserHandler (env : Env) (c : Ctx) :
    (createUserHandler env c).stmts =
      match env.BodyParser c.req with
      | .ok u => c.stmts ++ [⟨insertQuery, [u.Name, u.Email]⟩]
      | .error _ => c.stmts := by
  rcases createUserHandler_cases env c with ⟨_, hb, h⟩ | ⟨_, _, hb, -, h⟩ | ⟨_, _, hb, -, h⟩ <;>
    rw [h, hb] <;> rfl

theorem statusMessage_ok : statusMessage 200 = "OK" := by decide

theorem stmts_stack (env : Env) (req : Request) :
    (stack env routes req).stmts =
      if req.method = "POST" ∧ (matchRoute "/api/user" req.path).isSome then
        match env.BodyParser req with
        | .ok u =>
          [⟨"INSERT INTO users (name, email) VALUES ($1, $2) RETURNING id", [u.Name, u.Email]⟩]
        | .error _ => []
      else [] := by
  by_cases ho : req.method = "OPTIONS"
  · have : (stack env routes req).stmts = [] := by
      rw [stack_options env routes req ho]
      simp [Ctx.Set, Ctx.new, Ctx.SendStatus, Ctx.Status, Ctx.SendString]
    rw [this, if_neg]
    rw [ho]
    simp
  · rw [stack_not_options env routes req ho]
    by_cases hm : req.method = "POST"
    · rw [dispatch_routes_post env _ hm]
      cases hp : matchRoute "/api/user" req.path with
      | none =>
        have e1 : ∀ c : Ctx, c.req = req →
            (match matchRoute "/api/user" c.req.path with
              | some ps => createUserHandler env { c with params := ps }
              | none => noRoute routes c) = noRoute routes c := by
          intro c hc
          rw [hc, hp]
        rw [e1 _ rfl, stmts_noRoute]
        simp [Ctx.Set, Ctx.new]
      | some ps =>
        have e1 : ∀ c : Ctx, c.req = req →
            (match matchRoute "/api/user" c.req.path with
              | some ps => createUserHandler env { c with params := ps }
              | none => noRoute routes c) = createUserHandler env { c with params := ps } := by
          intro c hc
          rw [hc, hp]
        rw [e1 _ rfl, stmts_createUserHandler]
        simp only [hm, Option.isSome_some, and_self, if_true, Ctx.Set, Ctx.new]
        cases env.BodyParser req <;> simp [insertQuery]
    · rw [if_neg (fun h => hm h.1)]
      rcases dispatch_cases env routes routes
        ((((Ctx.new req).Set "Access-Control-Allow-Origin" allowedOrigin).Set
          "Access-Control-Allow-Methods" "GET,POST,OPTIONS").Set
          "Access-Control-Allow-Headers" "Content-Type") with h | ⟨r, hr, ps, h1, -, h⟩
      · rw [h, stmts_noRoute]; rfl
      · rw [h]
        rcases route_cases r hr with ⟨-, -, e⟩ | ⟨-, -, e⟩ | ⟨-, -, e⟩ | ⟨e, -, -⟩
        · rw [e]; rfl
        · rw [e]; rfl
        · rw [e]; rfl
        · exact absurd (e.symm.trans h1) (fun h => hm h.symm)

theorem stack_response_cases (env : Env) (req : Request) :
    (∃ s, (stack env routes req).body = .text s) ∨
    ((stack env routes req).status = 200 ∧ (stack env routes req).body =
      .json [("status", .str "success"), ("message", .str "Welcome to the API")]) ∨
    (∃ id, (stack env routes req).status = 200 ∧
      (req.method = "HEAD" ∨ req.method = "GET") ∧
      (matchRoute "/api/user/:id" req.path).isSome ∧
      (stack env routes req).body = .json [("user_id", .str id)]) ∨
    ((stack env routes req).status = 400 ∧ (stack env routes req).body =
      .json [("status", .str "error"), ("message", .str "Invalid JSON data")]) ∨
    ((stack env routes req).status = 500 ∧ (stack env routes req).body =
      .json [("status", .str "error"), ("message", .str "Failed to create user")]) ∨
    (∃ k n e, (stack env routes req).status = 201 ∧ req.method = "POST" ∧
      (matchRoute "/api/user" req.path).isSome ∧
      (stack env routes req).body =
        .json [("status", .str "success"), ("message", .str "User created successfully"),
               ("user", .user ⟨k, n, e⟩)]) := by
  by_cases ho : req.method = "OPTIONS"
  · refine Or.inl ⟨"OK", ?_⟩
    rw [stack_options env routes req ho]
    simp [Ctx.Set, Ctx.new, Ctx.SendStatus, Ctx.Status, Ctx.SendString, statusMessage_ok]
  · rw [stack_not_options env routes req ho]
    rcases dispatch_cases env routes routes
      ((((Ctx.new req).Set "Access-Control-Allow-Origin" allowedOrigin).Set
        "Access-Control-Allow-Methods" "GET,POST,OPTIONS").Set
        "Access-Control-Allow-Headers" "Content-Type") with h | ⟨r, hr, ps, h1, h2, h⟩
    · rw [h]
      refine Or.inl ?_
      unfold noRoute
      split
      · exact ⟨_, rfl⟩
      · exact ⟨_, rfl⟩
    · rw [h]
      have h1 : r.method = req.method := h1
      have h2 : matchRoute r.pattern req.path = some ps := h2
      rcases route_cases r hr with ⟨-, -, e⟩ | ⟨-, -, e⟩ | ⟨em, ep, e⟩ | ⟨em, ep, e⟩
      · rw [e]
        exact Or.inl ⟨_, rfl⟩
      · rw [e]
        exact Or.inr (Or.inl ⟨rfl, rfl⟩)
      · rw [e]
        refine Or.inr (Or.inr (Or.inl ⟨_, rfl, h1 ▸ em, ?_, rfl⟩))
        rw [← ep, h2]
        rfl
      · rw [e]
        rcases createUserHandler_cases env _ with ⟨_, -, hc⟩ | ⟨_, _, -, -, hc⟩ |
          ⟨u, k, -, -, hc⟩
        · rw [hc]
          exact Or.inr (Or.inr (Or.inr (Or.inl ⟨rfl, rfl⟩)))
        · rw [hc]
          exact Or.inr (Or.inr (Or.inr (Or.inr (Or.inl ⟨rfl, rfl⟩))))
        · rw [hc]
          refine Or.inr (Or.inr (Or.inr (Or.inr (Or.inr
            ⟨k, u.Name, u.Email, rfl, h1 ▸ em, ?_, rfl⟩))))
          rw [← ep, h2]
          rfl

theorem app_response_cases (env : Env) (req : Request) :
    (req.method = "HEAD" ∧ (app env req).body = .empty) ∨
    (∃ s, (app env req).body = .text s) ∨
    ((app env req).status = 200 ∧ (app env req).body =
      .json [("status", .str "success"), ("message", .str "Welcome to the API")]) ∨
    (∃ id, (app env req).status = 200 ∧ req.method = "GET" ∧
      (matchRoute "/api/user/:id" req.path).isSome ∧
      (app env req).body = .json [("user_id", .str id)]) ∨
    ((app env req).status = 400 ∧ (app env req).body =
      .json [("status", .str "error"), ("message", .str "Invalid JSON data")]) ∨
    ((app env req).status = 500 ∧ (app env req).body =
      .json [("status", .str "error"), ("message", .str "Failed to create user")]) ∨
    (∃ k n e, (app env req).status = 201 ∧ req.method = "POST" ∧
      (matchRoute "/api/user" req.path).isSome ∧
      (app env req).body =
        .json [("status", .str "success"), ("message", .str "User created successfully"),
               ("user", .user ⟨k, n, e⟩)]) := by
  by_cases hh : req.method = "HEAD"
  · refine Or.inl ⟨hh, ?_⟩
    rw [app, serve_head env routes req hh]
  · by_cases hk : req.method ∈ requestMethods
    · rw [app, serve_eq_stack env routes req hk hh]
      rcases stack_response_cases env req with h | h | ⟨id, h1, h2, h3, h4⟩ | h | h | h
      · exact Or.inr (Or.inl h)
      · exact Or.inr (Or.inr (Or.inl h))
      · exact Or.inr (Or.inr (Or.inr (Or.inl
          ⟨id, h1, h2.resolve_left hh, h3, h4⟩)))
      · exact Or.inr (Or.inr (Or.inr (Or.inr (Or.inl h))))
      · exact Or.inr (Or.inr (Or.inr (Or.inr (Or.inr (Or.inl h)))))
      · exact Or.inr (Or.inr (Or.inr (Or.inr (Or.inr (Or.inr h)))))
    · refine Or.inr (Or.inl ⟨"Invalid http method", ?_⟩)
      rw [app, serve_unknown env routes req hk]
      rfl

/-! ## The claims -/

/-- C10: every GET request to the path `/` is answered with status 200 and the
text `Hello, World!`, whatever its query parameters, headers and body; any two
such requests get the same status and body. -/
theorem get_root_hello (env : Env) (req : Request)
    (hm : req.method = "GET") (hp : req.path = "/") :
    (app env req).status = 200 ∧ (app env req).body = .text "Hello, World!" ∧
    ∀ (env2 : Env) (q h : List (String × String)) (b : String),
      (app env2 ⟨"GET", "/", q, h, b⟩).status = (app env req).status ∧
      (app env2 ⟨"GET", "/", q, h, b⟩).body = (app env req).body := by
  have key : ∀ (e : Env) (r : Request), r.method = "GET" → r.path = "/" →
      (app e r).status = 200 ∧ (app e r).body = .text "Hello, World!" := by
    intro e r hm hp
    have hk : r.method ∈ requestMethods := by rw [hm]; decide
    have hh : r.method ≠ "HEAD" := by rw [hm]; decide
    have hno : r.method ≠ "OPTIONS" := by rw [hm]; decide
    have hmatch : matchRoute "/" "/" = some [] := by decide
    rw [app, serve_eq_stack e routes r hk hh, stack_not_options e routes r hno]
    simp [routes, Get, Post, dispatch, hm, hp, hmatch, helloHandler, Ctx.SendString, Ctx.Set,
      Ctx.new]
  obtain ⟨h1, h2⟩ := key env req hm hp
  refine ⟨h1, h2, ?_⟩
  intro env2 q h b
  obtain ⟨h3, h4⟩ := key env2 ⟨"GET", "/", q, h, b⟩ rfl rfl
  rw [h1, h2, h3, h4]
  exact ⟨rfl, rfl⟩

/-- A run of C10. -/
theorem get_root_hello_witness :
    (app sampleEnv ⟨"GET", "/", [("lang", "en")], [("Accept", "text/html")], ""⟩).status = 200 ∧
    (app sampleEnv ⟨"GET", "/", [("lang", "en")], [("Accept", "text/html")], ""⟩).body =
      .text "Hello, World!" :=
  have h := get_root_hello sampleEnv ⟨"GET", "/", [("lang", "en")], [("Accept", "text/html")], ""⟩
    rfl rfl
  ⟨h.1, h.2.1⟩

/-- C6, as the claim states it, fails: a request with the method `FOO`, which the
framework does not route, is answered 400 before the middleware runs, and its
response carries none of the three CORS headers. -/
theorem unknown_method_gets_no_cors_headers :
    (app sampleEnv ⟨"FOO", "/", [], [], ""⟩).status = 400 ∧
    (app sampleEnv ⟨"FOO", "/", [], [], ""⟩).header "Access-Control-Allow-Origin" = none ∧
    (app sampleEnv ⟨"FOO", "/", [], [], ""⟩).header "Access-Control-Allow-Methods" = none ∧
    (app sampleEnv ⟨"FOO", "/", [], [], ""⟩).header "Access-Control-Allow-Headers" = none := by
  decide

/-- C6, amended: the response to every request whose method the framework routes
(GET, HEAD, POST, PUT, DELETE, CONNECT, OPTIONS, TRACE, PATCH), on any path and
whichever branch the handler takes, carries `Access-Control-Allow-Origin` with
the configured origin, `Access-Control-Allow-Methods: GET,POST,OPTIONS` and
`Access-Control-Allow-Headers: Content-Type`; a request with any other method is
answered 400 without any header set by the service. -/
theorem cors_headers_on_every_response (env : Env) (req : Request) :
    (req.method ∈ requestMethods →
      (app env req).header "Access-Control-Allow-Origin" = some allowedOrigin ∧
      (app env req).header "Access-Control-Allow-Methods" = some "GET,POST,OPTIONS" ∧
      (app env req).header "Access-Control-Allow-Headers" = some "Content-Type") ∧
    (req.method ∉ requestMethods →
      (app env req).status = 400 ∧ (app env req).headers = []) := by
  constructor
  · intro hk
    by_cases hh : req.method = "HEAD"
    · rw [app, serve_head env routes req hh]
      exact header_stack env req
    · rw [app, serve_eq_stack env routes req hk hh]
      exact header_stack env req
  · intro hk
    rw [app, serve_unknown env routes req hk]
    exact ⟨rfl, rfl⟩

/-- A run of the amended C6 on `DELETE /nowhere`, which no route takes. -/
theorem cors_headers_on_every_response_witness :
    "DELETE" ∈ requestMethods ∧
    (app sampleEnv ⟨"DELETE", "/nowhere", [], [], ""⟩).header "Access-Control-Allow-Origin" =
      some allowedOrigin ∧
    (app sampleEnv ⟨"DELETE", "/nowhere", [], [], ""⟩).header "Access-Control-Allow-Methods" =
      some "GET,POST,OPTIONS" ∧
    (app sampleEnv ⟨"DELETE", "/nowhere", [], [], ""⟩).header "Access-Control-Allow-Headers" =
      some "Content-Type" :=
  ⟨by decide,
    (cors_headers_on_every_response sampleEnv ⟨"DELETE", "/nowhere", [], [], ""⟩).1 (by decide)⟩

/-- C1: a POST to `/api/user` whose body parses into a user (name `n`, email `e`,
any id `i`) and whose insert returns the id `k` is answered with status 201 and
the JSON object with `status` "success", `message` "User created
successfully" and `user` the object of `k`, `n`, `e`: the id is the one the
database returned, not the one of the body. -/
theorem create_user_created (env : Env) (req : Request) (i k : Int) (n e : String)
    (hm : req.method = "POST") (hp : (matchRoute "/api/user" req.path).isSome)
    (hparse : env.BodyParser req = .ok ⟨i, n, e⟩)
    (hdb : env.QueryRow insertQuery [n, e] = .ok k) :
    (app env req).status = 201 ∧
    (app env req).body =
      .json [("status", .str "success"), ("message", .str "User created successfully"),
             ("user", .user ⟨k, n, e⟩)] ∧
    (app env req).body.toJson? =
      some (.obj [("status", .str "success"), ("message", .str "User created successfully"),
                  ("user", .obj [("id", .num k), ("name", .str n), ("email", .str e)])]) := by
  have hk : req.method ∈ requestMethods := by rw [hm]; decide
  have hh : req.method ≠ "HEAD" := by rw [hm]; decide
  have hno : req.method ≠ "OPTIONS" := by rw [hm]; decide
  obtain ⟨ps, hps⟩ := Option.isSome_iff_exists.mp hp
  have hreq : (Ctx.new req).req = req := rfl
  rw [app, serve_eq_stack env routes req hk hh, stack_not_options env routes req hno,
    dispatch_routes_post env _ hm]
  simp [Ctx.Set, hreq, hps, createUserHandler, hparse, hdb, Ctx.JSON, Ctx.Status, Ctx.exec,
    Ctx.log, Body.toJson?, Map.toJson, Value.toJson, User.toJson]

/-- A run of C1: the body carries the id 7, the database returns 42, the response
carries 42. -/
theorem create_user_created_witness :
    (app sampleEnv ⟨"POST", "/api/user", [], jsonHeaders, annBody⟩).status = 201 ∧
    (app sampleEnv ⟨"POST", "/api/user", [], jsonHeaders, annBody⟩).body =
      .json [("status", .str "success"), ("message", .str "User created successfully"),
             ("user", .user ⟨42, "Ann", "ann@example.org"⟩)] ∧
    (app sampleEnv ⟨"POST", "/api/user", [], jsonHeaders, annBody⟩).body.toJson? =
      some (.obj [("status", .str "success"), ("message", .str "User created successfully"),
                  ("user", .obj [("id", .num 42), ("name", .str "Ann"),
                                 ("email", .str "ann@example.org")])]) :=
  create_user_created sampleEnv ⟨"POST", "/api/user", [], jsonHeaders, annBody⟩ 7 42 "Ann"
    "ann@example.org" rfl (by decide) rfl rfl

/-- C2: a POST to `/api/user` whose body does not parse is answered with status
400 and the JSON object with `status` "error" and `message` "Invalid JSON
data", and no statement is sent to the database. -/
theorem create_user_bad_body (env : Env) (req : Request) (err : String)
    (hm : req.method = "POST") (hp : (matchRoute "/api/user" req.path).isSome)
    (hparse : env.BodyParser req = .error err) :
    (app env req).status = 400 ∧
    (app env req).body = .json [("status", .str "error"), ("message", .str "Invalid JSON data")] ∧
    (app env req).body.toJson? =
      some (.obj [("status", .str "error"), ("message", .str "Invalid JSON data")]) ∧
    (app env req).stmts = [] := by
  have hk : req.method ∈ requestMethods := by rw [hm]; decide
  have hh : req.method ≠ "HEAD" := by rw [hm]; decide
  have hno : req.method ≠ "OPTIONS" := by rw [hm]; decide
  obtain ⟨ps, hps⟩ := Option.isSome_iff_exists.mp hp
  have hreq : (Ctx.new req).req = req := rfl
  rw [app, serve_eq_stack env routes req hk hh, stack_not_options env routes req hno,
    dispatch_routes_post env _ hm]
  simp [Ctx.Set, hreq, hps, createUserHandler, hparse, Ctx.JSON, Ctx.Status,
    Body.toJson?, Map.toJson, Value.toJson, Ctx.new]

/-- A run of C2: the empty body does not parse. -/
theorem create_user_bad_body_witness :
    (app sampleEnv ⟨"POST", "/api/user", [], jsonHeaders, ""⟩).status = 400 ∧
    (app sampleEnv ⟨"POST", "/api/user", [], jsonHeaders, ""⟩).body =
      .json [("status", .str "error"), ("message", .str "Invalid JSON data")] ∧
    (app sampleEnv ⟨"POST", "/api/user", [], jsonHeaders, ""⟩).body.toJson? =
      some (.obj [("status", .str "error"), ("message", .str "Invalid JSON data")]) ∧
    (app sampleEnv ⟨"POST", "/api/user", [], jsonHeaders, ""⟩).stmts = [] :=
  create_user_bad_body sampleEnv ⟨"POST", "/api/user", [], jsonHeaders, ""⟩
    "unexpected end of JSON input" rfl (by decide) rfl

/-- C3: a POST to `/api/user` whose body parses and whose insert fails, with
whatever error, is answered with status 500 and the JSON object with `status`
"error" and `message` "Failed to create user"; status, headers and body are
the same whatever the database and its error are. -/
theorem create_user_db_failure (env : Env) (req : Request) (u : User) (err : String)
    (hm : req.method = "POST") (hp : (matchRoute "/api/user" req.path).isSome)
    (hparse : env.BodyParser req = .ok u)
    (hdb : env.QueryRow insertQuery [u.Name, u.Email] = .error err) :
    (app env req).status = 500 ∧
    (app env req).body =
      .json [("status", .str "error"), ("message", .str "Failed to create user")] ∧
    (app env req).body.toJson? =
      some (.obj [("status", .str "error"), ("message", .str "Failed to create user")]) ∧
    ∀ (env2 : Env) (u2 : User) (err2 : String), env2.BodyParser req = .ok u2 →
      env2.QueryRow insertQuery [u2.Name, u2.Email] = .error err2 →
      (app env2 req).status = (app env req).status ∧
      (app env2 req).headers = (app env req).headers ∧
      (app env2 req).body = (app env req).body := by
  have hk : req.method ∈ requestMethods := by rw [hm]; decide
  have hh : req.method ≠ "HEAD" := by rw [hm]; decide
  have hno : req.method ≠ "OPTIONS" := by rw [hm]; decide
  obtain ⟨ps, hps⟩ := Option.isSome_iff_exists.mp hp
  have hreq : (Ctx.new req).req = req := rfl
  have key : ∀ (e : Env) (v : User) (er : String), e.BodyParser req = .ok v →
      e.QueryRow insertQuery [v.Name, v.Email] = .error er →
      (app e req).status = 500 ∧
      (app e req).headers =
        [("Access-Control-Allow-Origin", allowedOrigin),
         ("Access-Control-Allow-Methods", "GET,POST,OPTIONS"),
         ("Access-Control-Allow-Headers", "Content-Type"),
         ("Content-Type", "application/json")] ∧
      (app e req).body =
        .json [("status", .str "error"), ("message", .str "Failed to create user")] := by
    intro e v er h1 h2
    rw [app, serve_eq_stack e routes req hk hh, stack_not_options e routes req hno,
      dispatch_routes_post e _ hm]
    simp [Ctx.Set, hreq, hps, createUserHandler, h1, h2, Ctx.JSON, Ctx.Status, Ctx.exec,
      Ctx.log, Ctx.new]
  obtain ⟨h1, h2, h3⟩ := key env u err hparse hdb
  refine ⟨h1, h3, ?_, ?_⟩
  · rw [h3]; rfl
  · intro env2 u2 err2 hp2 hd2
    obtain ⟨g1, g2, g3⟩ := key env2 u2 err2 hp2 hd2
    rw [h1, h2, h3]
    exact ⟨g1, g2, g3⟩

/-- A run of C3: the database cannot be reached; the response is the one a
rejected row gets. -/
theorem create_user_db_failure_witness :
    (app downEnv ⟨"POST", "/api/user", [], jsonHeaders, annBody⟩).status = 500 ∧
    (app downEnv ⟨"POST", "/api/user", [], jsonHeaders, annBody⟩).body =
      .json [("status", .str "error"), ("message", .str "Failed to create user")] ∧
    (app rejectEnv ⟨"POST", "/api/user", [], jsonHeaders, annBody⟩).body =
      (app downEnv ⟨"POST", "/api/user", [], jsonHeaders, annBody⟩).body :=
  have h := create_user_db_failure downEnv ⟨"POST", "/api/user", [], jsonHeaders, annBody⟩
    ⟨7, "Ann", "ann@example.org"⟩ "connection refused" rfl (by decide) rfl rfl
  ⟨h.1, h.2.1, (h.2.2.2 rejectEnv ⟨7, "Ann", "ann@example.org"⟩ "violates check constraint"
    rfl rfl).2.2⟩

/-- C4: a GET to `/api/user/{id}` is answered, for every path segment `id`
(numeric or not), with status 200 and the JSON object whose only member is
`user_id` with the string `id` itself as value; no statement is sent to the
database. -/
theorem get_user_echoes_id (env : Env) (q h : List (String × String)) (b id : String)
    (hne : id ≠ "") (hs : '/' ∉ id.data) :
    (app env ⟨"GET", "/api/user/" ++ id, q, h, b⟩).status = 200 ∧
    (app env ⟨"GET", "/api/user/" ++ id, q, h, b⟩).body = .json [("user_id", .str id)] ∧
    (app env ⟨"GET", "/api/user/" ++ id, q, h, b⟩).body.toJson? =
      some (.obj [("user_id", .str id)]) ∧
    (app env ⟨"GET", "/api/user/" ++ id, q, h, b⟩).stmts = [] := by
  obtain ⟨m1, m2, m3⟩ := matchRoute_user_id id hne hs
  have hk : "GET" ∈ requestMethods := by decide
  have hh : "GET" ≠ "HEAD" := by decide
  have hno : "GET" ≠ "OPTIONS" := by decide
  rw [app, serve_eq_stack env routes ⟨"GET", "/api/user/" ++ id, q, h, b⟩ hk hh,
    stack_not_options env routes ⟨"GET", "/api/user/" ++ id, q, h, b⟩ hno]
  simp [routes, Get, Post, dispatch, Ctx.Set, Ctx.new, m1, m2, m3, getUserHandler, Ctx.JSON,
    Ctx.Params, Body.toJson?, Map.toJson, Value.toJson, List.lookup]

/-- A run of C4 on the segment `abc`, which is not a number. -/
theorem get_user_echoes_id_witness :
    ("abc" ≠ "" ∧ '/' ∉ "abc".data) ∧
    (app sampleEnv ⟨"GET", "/api/user/" ++ "abc", [], [], ""⟩).status = 200 ∧
    (app sampleEnv ⟨"GET", "/api/user/" ++ "abc", [], [], ""⟩).body =
      .json [("user_id", .str "abc")] ∧
    (app sampleEnv ⟨"GET", "/api/user/" ++ "abc", [], [], ""⟩).body.toJson? =
      some (.obj [("user_id", .str "abc")]) ∧
    (app sampleEnv ⟨"GET", "/api/user/" ++ "abc", [], [], ""⟩).stmts = [] :=
  ⟨⟨by decide, by decide⟩, get_user_echoes_id sampleEnv [] [] "" "abc" (by decide) (by decide)⟩

/-- C9: a request sends at most one statement to the database.  A statement is
sent exactly when the request is a POST routed to `/api/user` whose body parses
into a user; it is then the one statement
`INSERT INTO users (name, email) VALUES ($1, $2) RETURNING id`, as the source
writes it, with the parsed name and the parsed email as arguments, in that
order.  Every other request sends none. -/
theorem database_effect_of_a_request (env : Env) (req : Request) :
    (app env req).stmts.length ≤ 1 ∧
    (app env req).stmts =
      if req.method = "POST" ∧ (matchRoute "/api/user" req.path).isSome then
        match env.BodyParser req with
        | .ok u =>
          [⟨"INSERT INTO users (name, email) VALUES ($1, $2) RETURNING id", [u.Name, u.Email]⟩]
        | .error _ => []
      else [] := by
  have main : (app env req).stmts =
      if req.method = "POST" ∧ (matchRoute "/api/user" req.path).isSome then
        match env.BodyParser req with
        | .ok u =>
          [⟨"INSERT INTO users (name, email) VALUES ($1, $2) RETURNING id", [u.Name, u.Email]⟩]
        | .error _ => []
      else [] := by
    by_cases hh : req.method = "HEAD"
    · rw [app, serve_head env routes req hh]
      exact stmts_stack env req
    · by_cases hk : req.method ∈ requestMethods
      · rw [app, serve_eq_stack env routes req hk hh]
        exact stmts_stack env req
      · rw [app, serve_unknown env routes req hk, if_neg]
        · rfl
        · intro h
          apply hk
          rw [h.1]
          decide
  refine ⟨?_, main⟩
  rw [main]
  split
  · split <;> simp
  · simp

/-- C5, as the claim states it, fails: the response to `OPTIONS /api/user` has the
status 200 and the body `OK`, not an empty body. -/
theorem options_body_is_status_text :
    (app sampleEnv ⟨"OPTIONS", "/api/user", [], [], ""⟩).status = 200 ∧
    (app sampleEnv ⟨"OPTIONS", "/api/user", [], [], ""⟩).body = .text "OK" ∧
    (app sampleEnv ⟨"OPTIONS", "/api/user", [], [], ""⟩).body ≠ .empty := by
  decide

/-- C5, amended: every request whose method is OPTIONS, on any path, is answered
with status 200, the status text `OK` as body and the three CORS headers; the
middleware answers it itself: the response is the same whatever the route table
and the collaborators are, and no statement is sent to the database. -/
theorem options_answered_by_middleware (env : Env) (req : Request)
    (hm : req.method = "OPTIONS") :
    (app env req).status = 200 ∧
    (app env req).body = .text "OK" ∧
    (app env req).header "Access-Control-Allow-Origin" = some allowedOrigin ∧
    (app env req).header "Access-Control-Allow-Methods" = some "GET,POST,OPTIONS" ∧
    (app env req).header "Access-Control-Allow-Headers" = some "Content-Type" ∧
    (app env req).stmts = [] ∧
    ∀ (env2 : Env) (rs : List Route), serve env2 rs req = app env req := by
  have hk : req.method ∈ requestMethods := by rw [hm]; decide
  have hh : req.method ≠ "HEAD" := by rw [hm]; decide
  have key : ∀ (e : Env) (rs : List Route), serve e rs req =
      ((((Ctx.new req).Set "Access-Control-Allow-Origin" allowedOrigin).Set
        "Access-Control-Allow-Methods" "GET,POST,OPTIONS").Set
        "Access-Control-Allow-Headers" "Content-Type").SendStatus 200 := by
    intro e rs
    rw [serve_eq_stack e rs req hk hh, stack_options e rs req hm]
  have h3 := cors_headers_set (Ctx.new req)
  rw [app, key env routes]
  refine ⟨rfl, ?_, h3.1, h3.2.1, h3.2.2, rfl, fun env2 rs => key env2 rs⟩
  simp [Ctx.SendStatus, Ctx.Status, Ctx.SendString, Ctx.Set, Ctx.new, statusMessage_ok]

/-- A run of the amended C5 on `OPTIONS /api/user`. -/
theorem options_answered_by_middleware_witness :
    (app sampleEnv ⟨"OPTIONS", "/api/user", [], jsonHeaders, annBody⟩).status = 200 ∧
    (app sampleEnv ⟨"OPTIONS", "/api/user", [], jsonHeaders, annBody⟩).body = .text "OK" ∧
    (app sampleEnv ⟨"OPTIONS", "/api/user", [], jsonHeaders, annBody⟩).stmts = [] :=
  have h := options_answered_by_middleware sampleEnv
    ⟨"OPTIONS", "/api/user", [], jsonHeaders, annBody⟩ rfl
  ⟨h.1, h.2.1, h.2.2.2.2.2.1⟩

/-- C7, as the claim states it, fails: the JSON response to `GET /api/user/abc` has
the single member `user_id`, it has no member `status` and no member `message`
and is not a response envelope. -/
theorem user_id_response_is_no_envelope :
    (app sampleEnv ⟨"GET", "/api/user/abc", [], [], ""⟩).body =
      .json [("user_id", .str "abc")] ∧
    (Map.toJson [("user_id", .str "abc")]).keys = ["user_id"] ∧
    (Map.toJson [("user_id", .str "abc")]).isEnvelope = false := by
  decide

/-- C7, amended: every JSON response of the service either is a response envelope
without a member `user_id` (the member `status` holds "success" or "error",
the member `message` is there, a member `user` may be, no other member is), or
is the response to a GET routed to `/api/user/{id}`, the object whose only member
is `user_id`. -/
theorem json_response_shapes (env : Env) (req : Request) (j : Json)
    (hj : (app env req).body.toJson? = some j) :
    (j.isEnvelope = true ∧ "user_id" ∉ j.keys) ∨
    (req.method = "GET" ∧ (matchRoute "/api/user/:id" req.path).isSome ∧
      j.keys = ["user_id"] ∧ ∃ id, j = .obj [("user_id", .str id)]) := by
  rcases app_response_cases env req with ⟨-, h⟩ | ⟨s, h⟩ | ⟨-, h⟩ | ⟨id, -, hm, hp, h⟩ |
    ⟨-, h⟩ | ⟨-, h⟩ | ⟨k, n, e, -, -, -, h⟩
  · rw [h] at hj
    simp [Body.toJson?] at hj
  · rw [h] at hj
    simp [Body.toJson?] at hj
  · rw [h] at hj
    simp only [Body.toJson?, Option.some.injEq] at hj
    subst hj
    exact Or.inl (by decide)
  · rw [h] at hj
    simp only [Body.toJson?, Option.some.injEq] at hj
    subst hj
    exact Or.inr ⟨hm, hp, rfl, id, rfl⟩
  · rw [h] at hj
    simp only [Body.toJson?, Option.some.injEq] at hj
    subst hj
    exact Or.inl (by decide)
  · rw [h] at hj
    simp only [Body.toJson?, Option.some.injEq] at hj
    subst hj
    exact Or.inl (by decide)
  · rw [h] at hj
    simp only [Body.toJson?, Option.some.injEq] at hj
    subst hj
    refine Or.inl ⟨?_, ?_⟩
    · simp [Map.toJson, Value.toJson, User.toJson, Json.isEnvelope, Json.member, Json.keys,
        List.lookup]
    · simp [Map.toJson, Json.keys]

/-- A run of the amended C7 on `GET /api`. -/
theorem json_response_shapes_witness :
    (app sampleEnv ⟨"GET", "/api", [], [], ""⟩).body.toJson? =
      some (.obj [("status", .str "success"), ("message", .str "Welcome to the API")]) ∧
    (Json.obj [("status", .str "success"), ("message", .str "Welcome to the API")]).isEnvelope
      = true :=
  have h : (app sampleEnv ⟨"GET", "/api", [], [], ""⟩).body.toJson? =
      some (.obj [("status", .str "success"), ("message", .str "Welcome to the API")]) := rfl
  ⟨h, (json_response_shapes sampleEnv ⟨"GET", "/api", [], [], ""⟩ _ h).elim (fun p => p.1)
    (fun p => absurd p.2.2.1 (by decide))⟩

/-- C8, as the claim states it, fails: the 201 response of `POST /api/user` is a
JSON object that is not flat, its member `user` is an object; and the response
to `GET /` is a text, not a JSON object. -/
theorem created_response_is_nested :
    (app sampleEnv ⟨"POST", "/api/user", [], jsonHeaders, annBody⟩).status = 201 ∧
    (app sampleEnv ⟨"POST", "/api/user", [], jsonHeaders, annBody⟩).body.toJson?.map
      Json.isFlatObject = some false ∧
    (app sampleEnv ⟨"GET", "/", [], [], ""⟩).body = .text "Hello, World!" := by
  decide

/-- C8, amended: the body of every response is a text or a single JSON object, but
for a HEAD request, whose response is sent without a body.  The JSON object is
flat, all its members hold scalars, in every response but the 201 response of
`POST /api/user`: there the members `status` and `message` hold scalars and the
member `user` holds one nested object, whose members `id`, `name` and `email`
hold scalars. -/
theorem response_body_shapes (env : Env) (req : Request) :
    (req.method = "HEAD" ∧ (app env req).body = .empty) ∨
    (∃ s, (app env req).body = .text s) ∨
    (∃ j, (app env req).body.toJson? = some j ∧ j.isFlatObject = true) ∨
    ((app env req).status = 201 ∧ req.method = "POST" ∧
      (matchRoute "/api/user" req.path).isSome ∧
      ∃ k n e, (app env req).body.toJson? =
        some (.obj [("status", .str "success"), ("message", .str "User created successfully"),
                    ("user", .obj [("id", .num k), ("name", .str n), ("email", .str e)])]) ∧
        (Json.obj [("id", .num k), ("name", .str n), ("email", .str e)]).isFlatObject = true) := by
  rcases app_response_cases env req with h | ⟨s, h⟩ | ⟨-, h⟩ | ⟨id, -, -, -, h⟩ | ⟨-, h⟩ |
    ⟨-, h⟩ | ⟨k, n, e, hs, hm, hp, h⟩
  · exact Or.inl h
  · exact Or.inr (Or.inl ⟨s, h⟩)
  · exact Or.inr (Or.inr (Or.inl ⟨_, by rw [h]; rfl, by decide⟩))
  · exact Or.inr (Or.inr (Or.inl ⟨.obj [("user_id", .str id)], by rw [h]; rfl, rfl⟩))
  · exact Or.inr (Or.inr (Or.inl ⟨_, by rw [h]; rfl, by decide⟩))
  · exact Or.inr (Or.inr (Or.inl ⟨_, by rw [h]; rfl, by decide⟩))
  · exact Or.inr (Or.inr (Or.inr ⟨hs, hm, hp, k, n, e, by rw [h]; rfl, rfl⟩))

end WhoAmI
